import Mathlib

/-!
Verification of `burputils.py` (BurpsuiteExtensions/burputils).

The module is a thin wrapper class `BurpUtils` around a host-supplied Burp
helper object (`IExtensionHelpers`).  We embed it shallowly:

* host-owned objects (the helper, `IHttpRequestResponse`, the analysis info
  objects) are records of abstract data and abstract functions;
* each Python method becomes a Lean function that returns its result, the
  post-state of the `BurpUtils` instance (the translation of `self`, which no
  method reassigns), and the list of host-helper calls it performed;
* the few bits of genuine Python semantics that the code relies on
  (`list.insert`, indexing `xs[i]`, slicing `xs[i:]`) are modelled explicitly,
  including the dynamic type check of `list.insert` and the bounds check of
  indexing, since the source exercises both.
-/

/-- Raw bytes (Burp byte arrays), as lists of natural numbers. -/
abbrev Bytes := List Nat

/-- Python exceptions that the embedded code can raise on its own. -/
inductive PyExc where
  | typeError (msg : String)
  | indexError (msg : String)
  deriving DecidableEq, Repr

/-- A Python scalar value as it appears in the argument list handed to
`runExternal`: the documented elements are strings, and the literal `0`
that the source passes to `insert` is an int. -/
inductive PyScalar where
  | int (i : Int)
  | str (s : String)
  deriving DecidableEq, Repr

/-- Position at which Python `list.insert(i, x)` places `x` for an integer
index `i`: clamped to the list, counting from the end when negative. -/
def pyInsertPos (n : Nat) (i : Int) : Nat :=
  (if i < 0 then max ((n : Int) + i) 0 else min i (n : Int)).toNat

/-- Python `xs.insert(index, x)`.  The index must be an integer; passing a
string as the index raises `TypeError` (and mutates nothing), which is
exactly what `args.insert(command, 0)` in the source does. -/
def pyListInsert (xs : List PyScalar) (index : PyScalar) (x : PyScalar) :
    Except PyExc (List PyScalar) :=
  match index with
  | .int i =>
      let pos := pyInsertPos xs.length i
      .ok (xs.take pos ++ [x] ++ xs.drop pos)
  | .str _ => .error (.typeError "an integer is required")

/-- Python indexing `xs[i]` on a byte list: negative indices count from the
end, out-of-range indices raise `IndexError`. -/
def pyIndex (xs : Bytes) (i : Int) : Except PyExc Nat :=
  let j : Int := if i < 0 then (xs.length : Int) + i else i
  if 0 ≤ j ∧ j < (xs.length : Int) then .ok (xs.getD j.toNat 0)
  else .error (.indexError "index out of range")

/-- Python slicing `xs[i:]` on a byte list: the start is clamped into the
list, counting from the end when negative; never raises. -/
def pySliceFrom (xs : Bytes) (i : Int) : Bytes :=
  xs.drop ((if i < 0 then max ((xs.length : Int) + i) 0
            else min i (xs.length : Int)).toNat)

/-- Host-owned `IRequestInfo` / `IResponseInfo` object returned by the
analysis methods of the helper; the wrapper only consumes `getBodyOffset()`
and `getHeaders()` on it. -/
structure MessageInfo where
  bodyOffset : Int
  headers : List String
  deriving DecidableEq, Repr

/-- Host-owned `IHttpRequestResponse` object: the stored request and
response messages plus the other per-item fields the Burp API documents
(comment, highlight). -/
structure IHttpRequestResponse where
  request : Bytes
  response : Bytes
  comment : String
  highlight : String
  deriving DecidableEq, Repr

/-- The host helper interface (`IExtensionHelpers`), abstract: each method
the wrapper forwards to is an arbitrary function supplied by the host.
`analyzeRequest` is overloaded in the Burp API, so its two overloads
(raw bytes, whole `IHttpRequestResponse`) are separate fields. -/
structure IExtensionHelpers where
  analyzeRequestBytes : Bytes → MessageInfo
  analyzeRequestRR : IHttpRequestResponse → MessageInfo
  analyzeResponseBytes : Bytes → MessageInfo
  buildHttpMessageFn : List String → Bytes → Bytes
  base64DecodeFn : Bytes → Bytes
  base64EncodeFn : Bytes → Bytes

/-- One call made on a host-owned object, recorded with its exact argument:
which helper method (or `IHttpRequestResponse` setter) was invoked and what
was passed through. -/
inductive HostCall where
  | analyzeRequestBytes (raw : Bytes)
  | analyzeRequestRR (rr : IHttpRequestResponse)
  | analyzeResponseBytes (raw : Bytes)
  | setRequest (message : Bytes)
  | setResponse (message : Bytes)
  | buildHttpMessage (headers : List String) (body : Bytes)
  | base64Decode (data : Bytes)
  | base64Encode (data : Bytes)
  deriving DecidableEq, Repr

/-- Host-side effect of the recorded calls on an `IHttpRequestResponse`
item, per the Burp API: `setRequest` stores the message as the request,
`setResponse` stores it as the response; the analysis and codec calls do
not modify the item. -/
def applyHostCall (rr : IHttpRequestResponse) (c : HostCall) : IHttpRequestResponse :=
  match c with
  | .setRequest m => { rr with request := m }
  | .setResponse m => { rr with response := m }
  | _ => rr

/-- Effect of a sequence of recorded host calls on an `IHttpRequestResponse`. -/
def runHostCalls (rr : IHttpRequestResponse) (cs : List HostCall) : IHttpRequestResponse :=
  cs.foldl applyHostCall rr

/-- The `BurpUtils` instance: its only attribute is `self.burpHelper`,
set once in `__init__`. -/
structure BurpUtils where
  burpHelper : IExtensionHelpers

/-- `BurpUtils.__init__`: stores the supplied callback helper. -/
def BurpUtils.init (callbackHelper : IExtensionHelpers) : BurpUtils :=
  { burpHelper := callbackHelper }

/-- Outcome of one method call: the returned value, the instance state
after the call (the translation of `self`), and the host calls made. -/
structure Call (α : Type) where
  ret : α
  post : BurpUtils
  hostCalls : List HostCall

/-- `BurpUtils.getInfoFromBytes`: forwards raw bytes to
`analyzeRequest` when `isRequest` is true, else to `analyzeResponse`. -/
def BurpUtils.getInfoFromBytes (self : BurpUtils) (isRequest : Bool)
    (rawBytes : Bytes) : Call MessageInfo :=
  if isRequest then
    ⟨self.burpHelper.analyzeRequestBytes rawBytes, self,
      [.analyzeRequestBytes rawBytes]⟩
  else
    ⟨self.burpHelper.analyzeResponseBytes rawBytes, self,
      [.analyzeResponseBytes rawBytes]⟩

/-- `BurpUtils.getInfo`: when `isRequest` is true, passes the whole
`IHttpRequestResponse` object to `analyzeRequest`; when false, extracts
`requestResponse.getResponse()` and passes those bytes to
`analyzeResponse`. -/
def BurpUtils.getInfo (self : BurpUtils) (isRequest : Bool)
    (requestResponse : IHttpRequestResponse) : Call MessageInfo :=
  if isRequest then
    ⟨self.burpHelper.analyzeRequestRR requestResponse, self,
      [.analyzeRequestRR requestResponse]⟩
  else
    ⟨self.burpHelper.analyzeResponseBytes requestResponse.response, self,
      [.analyzeResponseBytes requestResponse.response]⟩

/-- `BurpUtils.getBodyFromBytes`: analyzes the raw bytes, then evaluates
`rawBytes[info.getBodyOffset()]` — Python indexing, not a slice, exactly
as line 77 of the source is written. -/
def BurpUtils.getBodyFromBytes (self : BurpUtils) (isRequest : Bool)
    (rawBytes : Bytes) : Call (Except PyExc Nat) :=
  let info := self.getInfoFromBytes isRequest rawBytes
  ⟨pyIndex rawBytes info.ret.bodyOffset, info.post, info.hostCalls⟩

/-- `BurpUtils.getBody`: analyzes via `getInfo`, then slices the request
bytes (`requestResponse.getRequest()[offset:]`) or response bytes from the
reported body offset. -/
def BurpUtils.getBody (self : BurpUtils) (isRequest : Bool)
    (requestResponse : IHttpRequestResponse) : Call Bytes :=
  let info := self.getInfo isRequest requestResponse
  if isRequest then
    ⟨pySliceFrom requestResponse.request info.ret.bodyOffset, info.post,
      info.hostCalls⟩
  else
    ⟨pySliceFrom requestResponse.response info.ret.bodyOffset, info.post,
      info.hostCalls⟩

/-- Modelled from the spec: the sibling `headers` module that `getHeaders`
and `createHTTPMessage` import is not among the source files; the spec
calls it only "an import of an unrelated headers helper".  It is modelled
as an object holding a raw header list, with `importRaw` storing a list
and `exportRaw` returning the stored list. -/
structure Headers where
  raw : List String
  deriving DecidableEq, Repr

/-- Modelled from the spec: `Headers()` constructor of the sibling module. -/
def Headers.new : Headers := ⟨[]⟩

/-- Modelled from the spec: `Headers.importRaw` stores the raw header list. -/
def Headers.importRaw (_self : Headers) (rawHdr : List String) : Headers :=
  ⟨rawHdr⟩

/-- Modelled from the spec: `Headers.exportRaw` returns the raw header list. -/
def Headers.exportRaw (self : Headers) : List String :=
  self.raw

/-- `BurpUtils.getHeaders`: wraps `info.getHeaders()` in a `Headers`
object of the sibling module. -/
def BurpUtils.getHeaders (self : BurpUtils) (info : MessageInfo) : Call Headers :=
  let hdr := Headers.new
  let rawHdr := info.headers
  ⟨hdr.importRaw rawHdr, self, []⟩

/-- `BurpUtils.setRequestResponse`: returns `None`; calls
`requestResponse.setRequest(message)` when `isRequest` is true, else
`requestResponse.setResponse(message)`. -/
def BurpUtils.setRequestResponse (self : BurpUtils) (isRequest : Bool)
    (message : Bytes) (_requestResponse : IHttpRequestResponse) : Call Unit :=
  if isRequest then ⟨(), self, [.setRequest message]⟩
  else ⟨(), self, [.setResponse message]⟩

/-- `BurpUtils.createHTTPMessage`: forwards to
`buildHttpMessage(headers.exportRaw(), bodyBytes)`. -/
def BurpUtils.createHTTPMessage (self : BurpUtils) (headers : Headers)
    (bodyBytes : Bytes) : Call Bytes :=
  ⟨self.burpHelper.buildHttpMessageFn headers.exportRaw bodyBytes, self,
    [.buildHttpMessage headers.exportRaw bodyBytes]⟩

/-- `BurpUtils.base64Decode`: forwards to the helper. -/
def BurpUtils.base64Decode (self : BurpUtils) (base64Data : Bytes) : Call Bytes :=
  ⟨self.burpHelper.base64DecodeFn base64Data, self, [.base64Decode base64Data]⟩

/-- `BurpUtils.base64Encode`: forwards to the helper. -/
def BurpUtils.base64Encode (self : BurpUtils) (data : Bytes) : Call Bytes :=
  ⟨self.burpHelper.base64EncodeFn data, self, [.base64Encode data]⟩

/-- Streams of one spawned process: the bytes read from its stdout and
stderr pipes. -/
structure ProcResult where
  stdout : Bytes
  stderr : Bytes
  deriving DecidableEq, Repr

/-- The OS process layer, abstract: `popen` maps an argument vector to the
streams of the process it would spawn. -/
structure OS where
  popen : List PyScalar → ProcResult

/-- Outcome of `runExternal`: the returned value (or the Python exception
that propagated), the instance state after the call, the state of the
caller-supplied `args` list after the call (the list is aliased, so an
in-place `insert` would be visible to the caller), the argument vectors of
the processes actually spawned, and the byte strings written to
`sys.stdout`. -/
structure RunExternalOut where
  ret : Except PyExc Bytes
  post : BurpUtils
  argsAfter : List PyScalar
  spawned : List (List PyScalar)
  writtenToStdout : List Bytes

/-- `BurpUtils.runExternal`: executes `args.insert(command, 0)` — the
source passes `command` as the index argument of `insert` and `0` as the
element — then, if that succeeded, spawns `Popen(args, ...)`, reads the
stdout and stderr pipes, writes the stderr bytes to `sys.stdout` and
returns the stdout bytes.  A raised exception aborts the method with the
list unmutated and nothing spawned. -/
def BurpUtils.runExternal (self : BurpUtils) (os : OS) (command : String)
    (args : List PyScalar) : RunExternalOut :=
  match pyListInsert args (.str command) (.int 0) with
  | .error e =>
      { ret := .error e, post := self, argsAfter := args,
        spawned := [], writtenToStdout := [] }
  | .ok argv =>
      let proc := os.popen argv
      let output := proc.stdout
      let err := proc.stderr
      { ret := .ok output, post := self, argsAfter := argv,
        spawned := [argv], writtenToStdout := [err] }

/-! ## Concrete sample objects used to evaluate the code on closed inputs -/

/-- A concrete host helper: its analysis reports body offset 2 for every
message, the codec and builder functions are the identity on the bytes. -/
def sampleHelpers : IExtensionHelpers where
  analyzeRequestBytes := fun _ => ⟨2, []⟩
  analyzeRequestRR := fun _ => ⟨2, []⟩
  analyzeResponseBytes := fun _ => ⟨2, []⟩
  buildHttpMessageFn := fun _ b => b
  base64DecodeFn := fun b => b
  base64EncodeFn := fun b => b

/-- A `BurpUtils` instance constructed on the sample helper. -/
def sampleUtils : BurpUtils := BurpUtils.init sampleHelpers

/-- A concrete OS layer: every spawned process yields the bytes of "out"
on stdout and of "err" on stderr. -/
def sampleOS : OS where
  popen := fun _ => ⟨[111, 117, 116], [101, 114, 114]⟩

/-! ## Claims -/

/-- Claim C1: the claim says `runExternal` spawns exactly one process with
argument vector `[command] ++ args` and returns its stdout bytes.  The
code instead executes `args.insert(command, 0)` — the command string is
passed as the integer index of `list.insert` — which raises `TypeError`
for every command string and argument list, so no process is ever spawned
and no stdout bytes are returned. -/
theorem runExternal_spawns_nothing (u : BurpUtils) (os : OS)
    (command : String) (args : List PyScalar) :
    (u.runExternal os command args).spawned = [] ∧
    (u.runExternal os command args).ret
      = .error (.typeError "an integer is required") :=
  ⟨rfl, rfl⟩

/-- Claim C2: the claim says `getBodyFromBytes` returns the suffix
`rawBytes[offset:]`.  Evaluated on raw bytes `[65, 66, 67, 68]` whose host
analysis reports body offset 2, the code returns the single byte 67 —
line 77 indexes (`rawBytes[info.getBodyOffset()]`, no colon) instead of
slicing — while the suffix from the offset is `[67, 68]`. -/
theorem getBodyFromBytes_returns_single_byte :
    (sampleUtils.getBodyFromBytes true [65, 66, 67, 68]).ret = .ok 67 ∧
    pySliceFrom [65, 66, 67, 68] 2 = [67, 68] :=
  ⟨rfl, rfl⟩

/-- Claim C3: the claim says no operation raises an exception of its own
before or instead of the host/OS call when the arguments have the
documented types.  Evaluated at the documented types (a command string
and a list of strings), `runExternal` raises its own `TypeError` from
`args.insert(command, 0)` instead of the OS call: no process is
spawned. -/
theorem runExternal_raises_own_exception :
    (sampleUtils.runExternal sampleOS "echo" [.str "hello"]).ret
      = .error (.typeError "an integer is required") ∧
    (sampleUtils.runExternal sampleOS "echo" [.str "hello"]).spawned = [] :=
  ⟨rfl, rfl⟩

/-- Claim C4: `getInfoFromBytes` returns exactly the host
`analyzeRequest(rawBytes)` when `isRequest` is true and exactly
`analyzeResponse(rawBytes)` when it is false, and the single host call it
makes is that one, with the raw bytes passed through unchanged. -/
theorem getInfoFromBytes_forwards (u : BurpUtils) (isRequest : Bool)
    (rawBytes : Bytes) :
    (u.getInfoFromBytes isRequest rawBytes).ret
      = (if isRequest then u.burpHelper.analyzeRequestBytes rawBytes
         else u.burpHelper.analyzeResponseBytes rawBytes) ∧
    (u.getInfoFromBytes isRequest rawBytes).hostCalls
      = [if isRequest then HostCall.analyzeRequestBytes rawBytes
         else HostCall.analyzeResponseBytes rawBytes] := by
  cases isRequest <;> exact ⟨rfl, rfl⟩

/-- Claim C5: `getBody` returns the suffix of
`requestResponse.getRequest()` (when `isRequest` is true) or of
`requestResponse.getResponse()` (when false) starting at the body offset
of the host analysis of that same message. -/
theorem getBody_slices_from_offset (u : BurpUtils) (rr : IHttpRequestResponse) :
    (u.getBody true rr).ret
      = pySliceFrom rr.request (u.burpHelper.analyzeRequestRR rr).bodyOffset ∧
    (u.getBody false rr).ret
      = pySliceFrom rr.response
          (u.burpHelper.analyzeResponseBytes rr.response).bodyOffset :=
  ⟨rfl, rfl⟩

/-- Claim C6: `setRequestResponse` returns `None`, its single host call
stores the message into the request field when `isRequest` is true and
into the response field when false, and the comment and highlight fields
of the item are unchanged (as is the other message field, per the record
update). -/
theorem setRequestResponse_frame (u : BurpUtils) (isRequest : Bool)
    (message : Bytes) (rr : IHttpRequestResponse) :
    (u.setRequestResponse isRequest message rr).ret = () ∧
    runHostCalls rr (u.setRequestResponse isRequest message rr).hostCalls
      = (if isRequest then { rr with request := message }
         else { rr with response := message }) ∧
    (runHostCalls rr (u.setRequestResponse isRequest message rr).hostCalls).comment
      = rr.comment ∧
    (runHostCalls rr (u.setRequestResponse isRequest message rr).hostCalls).highlight
      = rr.highlight := by
  cases isRequest <;> exact ⟨rfl, rfl, rfl, rfl⟩

/-- Claim C7: the helper handle is the whole state of a `BurpUtils`
instance — `__init__` stores the supplied helper, every instance equals
the instance rebuilt from its `burpHelper` field alone, and every public
method leaves the instance state exactly as it found it. -/
theorem burpUtils_only_state_is_helper (cb : IExtensionHelpers)
    (u : BurpUtils) (isRequest : Bool) (raw message body data : Bytes)
    (rr : IHttpRequestResponse) (info : MessageInfo) (hdrs : Headers)
    (os : OS) (command : String) (args : List PyScalar) :
    (BurpUtils.init cb).burpHelper = cb ∧
    u = ⟨u.burpHelper⟩ ∧
    (u.getInfoFromBytes isRequest raw).post = u ∧
    (u.getInfo isRequest rr).post = u ∧
    (u.getBodyFromBytes isRequest raw).post = u ∧
    (u.getBody isRequest rr).post = u ∧
    (u.getHeaders info).post = u ∧
    (u.setRequestResponse isRequest message rr).post = u ∧
    (u.runExternal os command args).post = u ∧
    (u.createHTTPMessage hdrs body).post = u ∧
    (u.base64Decode data).post = u ∧
    (u.base64Encode data).post = u := by
  cases isRequest <;>
    exact ⟨rfl, rfl, rfl, rfl, rfl, rfl, rfl, rfl, rfl, rfl, rfl, rfl⟩

/-- Claim C8: the claim says the caller list is modified in place by the
insert, so that after the call it differs from the list passed in.  In
fact `args.insert(command, 0)` raises `TypeError` before mutating
anything: after the (failed) call the caller list is exactly the list
that was passed in, for every command and argument list. -/
theorem runExternal_leaves_args_unchanged (u : BurpUtils) (os : OS)
    (command : String) (args : List PyScalar) :
    (u.runExternal os command args).argsAfter = args :=
  rfl

/-- Claim C9: `getInfo` is asymmetric in the flag — with `isRequest` true
it passes the whole `IHttpRequestResponse` object to the host
`analyzeRequest`, with `isRequest` false it first extracts
`requestResponse.getResponse()` and passes only those bytes to
`analyzeResponse`. -/
theorem getInfo_asymmetric (u : BurpUtils) (rr : IHttpRequestResponse) :
    (u.getInfo true rr).hostCalls = [HostCall.analyzeRequestRR rr] ∧
    (u.getInfo true rr).ret = u.burpHelper.analyzeRequestRR rr ∧
    (u.getInfo false rr).hostCalls
      = [HostCall.analyzeResponseBytes rr.response] ∧
    (u.getInfo false rr).ret = u.burpHelper.analyzeResponseBytes rr.response :=
  ⟨rfl, rfl, rfl, rfl⟩

/-- Claim C10: the claim says `runExternal` writes the captured stderr
bytes to `sys.stdout` and excludes them from the returned value.
Evaluated on a concrete OS layer, the `TypeError` from
`args.insert(command, 0)` aborts the method before any process is
spawned, so nothing is ever read from stderr, nothing is written to
`sys.stdout`, and no value is returned. -/
theorem runExternal_writes_nothing_to_stdout :
    (sampleUtils.runExternal sampleOS "echo" [.str "hello"]).writtenToStdout
      = [] ∧
    (sampleUtils.runExternal sampleOS "echo" [.str "hello"]).ret
      = .error (.typeError "an integer is required") :=
  ⟨rfl, rfl⟩
